import Mathlib

/-!
Shallow embedding of the Group Activity Planning agent
(src/app/core_planner.py, src/app/preference_collector.py,
src/app/communication_handler.py, src/app/main.py).

The `database` module imported by core_planner.py and main.py is not part of
the five source files, so the `Database` operations below are modelled from
the spec's Storage Interface (key-based put/get with read-your-writes
consistency, section 2/6 of the spec); every other definition is a direct
translation of the Python source.  Python exceptions are modelled with
`Except PyError`; calls on the (mocked) delivery channels `_send_sms` and
`_send_email` are modelled as `Sent` events collected in a list, since the
Python bodies only log.  Database mutations that the Python code performs
before an exception is raised stay visible in the returned `Database`,
matching the persistence of the storage layer.
-/

namespace Planner

/-- Session row: `db.create_session(organizer_name, organizer_contact,
event_name, created_at)`.  The timestamp plays no role in any claim and is
omitted. -/
structure SessionRec where
  organizer_name : String
  organizer_contact : String
  event_name : String
deriving Repr, DecidableEq

/-- Participant row with the per-participant collection state used by
preference_collector.py: stored questions, stored (question_id, response)
pairs, the awaiting-continuation flag and the completion flag. -/
structure ParticipantRec where
  pid : String
  session_id : String
  name : String
  contact : String
  preferred_comm_method : Option String
  questions : List String
  responses : List (String × String)
  awaiting_continuation : Bool
  preferences_complete : Bool
deriving Repr, DecidableEq

/-- Plan row as touched by `db.update_plan_status(plan_id, status, feedback)`:
a status string ('approved' / 'rejected' / whatever was stored before) and
optional organizer feedback. -/
structure PlanRec where
  status : String
  feedback : Option String
deriving Repr, DecidableEq

/-- Modelled from the spec: the Storage Interface of the missing `database`
module, as key-based collections (sessions and plans keyed by id,
participants carrying their session id). -/
structure Database where
  sessions : List (String × SessionRec)
  participants : List ParticipantRec
  plans : List (String × PlanRec)
deriving Repr, DecidableEq

/-- Modelled from the spec: `db.get_session(session_id)` returns the stored
session or None. -/
def Database.get_session (db : Database) (sid : String) : Option SessionRec :=
  (db.sessions.find? (fun e => decide (e.1 = sid))).map (fun e => e.2)

/-- Modelled from the spec: `db.get_participants(session_id)` lists the
participants of a session. -/
def Database.get_participants (db : Database) (sid : String) : List ParticipantRec :=
  db.participants.filter (fun p => decide (p.session_id = sid))

/-- Modelled from the spec: `db.get_participant(participant_id)`. -/
def Database.get_participant (db : Database) (pid : String) : Option ParticipantRec :=
  db.participants.find? (fun p => decide (p.pid = pid))

/-- Modelled from the spec: point update of one participant row (the write
half of the storage interface's put/get). -/
def Database.updateParticipant (db : Database) (pid : String)
    (f : ParticipantRec → ParticipantRec) : Database :=
  { db with participants := db.participants.map (fun p => if p.pid = pid then f p else p) }

/-- Modelled from the spec: `db.create_session(...)` persists a new session
under a freshly generated id and returns the id. -/
def Database.create_session (db : Database)
    (organizer_name organizer_contact event_name : String) : Database × String :=
  let sid := "s" ++ toString db.sessions.length
  ({ db with sessions := db.sessions ++ [(sid, ⟨organizer_name, organizer_contact, event_name⟩)] },
   sid)

/-- Modelled from the spec: `db.add_participant(session_id, name, contact)`
persists a new participant row under a fresh id, with no preferred method,
no questions or responses, and cleared flags. -/
def Database.add_participant (db : Database) (sid name contact : String) : Database :=
  let pid := "p" ++ toString db.participants.length
  { db with participants := db.participants ++ [⟨pid, sid, name, contact, none, [], [], false, false⟩] }

/-- Modelled from the spec: `db.is_preference_collection_complete(pid)` reads
the completion flag. -/
def Database.is_preference_collection_complete (db : Database) (pid : String) : Bool :=
  ((db.get_participant pid).map (fun p => p.preferences_complete)).getD false

/-- Modelled from the spec: `db.get_preferred_comm_method(pid)` (None until
set). -/
def Database.get_preferred_comm_method (db : Database) (pid : String) : Option String :=
  (db.get_participant pid).bind (fun p => p.preferred_comm_method)

/-- Modelled from the spec: `db.set_preferred_comm_method(pid, method)`. -/
def Database.set_preferred_comm_method (db : Database) (pid m : String) : Database :=
  db.updateParticipant pid (fun p => { p with preferred_comm_method := some m })

/-- Modelled from the spec: `db.get_participant_contact(pid)`. -/
def Database.get_participant_contact (db : Database) (pid : String) : String :=
  ((db.get_participant pid).map (fun p => p.contact)).getD ""

/-- Modelled from the spec: `db.store_preference_response(pid, question_id,
response)` appends one (question, response) pair (append-only, section 3). -/
def Database.store_preference_response (db : Database) (pid qid resp : String) : Database :=
  db.updateParticipant pid (fun p => { p with responses := p.responses ++ [(qid, resp)] })

/-- Modelled from the spec: `db.get_question_count(pid)` is the number of
recorded responses (the quantity the threshold rule of section 4.2 counts). -/
def Database.get_question_count (db : Database) (pid : String) : Nat :=
  ((db.get_participant pid).map (fun p => p.responses.length)).getD 0

/-- Modelled from the spec: `db.set_awaiting_continuation(pid, flag)`. -/
def Database.set_awaiting_continuation (db : Database) (pid : String) (b : Bool) : Database :=
  db.updateParticipant pid (fun p => { p with awaiting_continuation := b })

/-- Modelled from the spec: `db.mark_preferences_complete(pid)`. -/
def Database.mark_preferences_complete (db : Database) (pid : String) : Database :=
  db.updateParticipant pid (fun p => { p with preferences_complete := true })

/-- Modelled from the spec: `db.store_question(pid, question)` appends the
question and returns a question id. -/
def Database.store_question (db : Database) (pid q : String) : Database × String :=
  (db.updateParticipant pid (fun p => { p with questions := p.questions ++ [q] }),
   "q" ++ toString (((db.get_participant pid).map (fun p => p.questions.length)).getD 0))

/-- Modelled from the spec: `db.get_participant_responses(pid)`. -/
def Database.get_participant_responses (db : Database) (pid : String) : List (String × String) :=
  ((db.get_participant pid).map (fun p => p.responses)).getD []

/-- Modelled from the spec: `db.update_plan_status(plan_id, status, feedback)`
overwrites the status and feedback of the stored plan. -/
def Database.update_plan_status (db : Database) (plan_id status : String)
    (feedback : Option String) : Database :=
  { db with plans :=
      db.plans.map (fun e => if e.1 = plan_id then (e.1, PlanRec.mk status feedback) else e) }

/-- Modelled from the spec: `db.get_plan(plan_id)`. -/
def Database.get_plan (db : Database) (plan_id : String) : Option PlanRec :=
  (db.plans.find? (fun e => decide (e.1 = plan_id))).map (fun e => e.2)

/-- Whitespace characters for Python str.strip (covering the inputs this
code receives). -/
def isSpaceChar (c : Char) : Bool := c == ' ' || c == '\t' || c == '\n' || c == '\r'

/-- Python `s.strip()`, modelled over the character list of the string. -/
def pyStrip (s : String) : String :=
  ⟨((s.data.dropWhile isSpaceChar).reverse.dropWhile isSpaceChar).reverse⟩

/-- Lowercase one character (Python str.lower on the ASCII range these
responses use). -/
def lowerChar (c : Char) : Char :=
  if 'A' ≤ c ∧ c ≤ 'Z' then Char.ofNat (c.toNat + 32) else c

/-- Python `s.lower()`. -/
def pyLower (s : String) : String := ⟨s.data.map lowerChar⟩

/-- Python `c in s` for a one-character needle. -/
def containsChar (s : String) (c : Char) : Bool := s.data.contains c

/-- Python exceptions raised by the code paths the claims touch. -/
inductive PyError where
  | attributeError (msg : String)
  | typeError (msg : String)
  | nameError (name : String)
deriving Repr, DecidableEq

/-- One delivery event: a call of `_send_sms(to, body)` or
`_send_email(to, subject, body)` (the Python bodies only log, so the event
itself is the whole observable effect). -/
inductive Sent where
  | sms (recipient body : String)
  | email (recipient subject body : String)
deriving Repr, DecidableEq

/-- communication_handler.py `CommunicationHandler.__init__` configuration
fields. -/
structure CommunicationHandler where
  sms_enabled : Bool
  email_enabled : Bool
  base_url : String
deriving Repr, DecidableEq

/-- The handler as constructed by `CorePlanner.__init__`:
`CommunicationHandler()` with all defaults. -/
def defaultCommHandler : CommunicationHandler :=
  ⟨true, true, "https://planner.yourdomain.com"⟩

/-- The method names defined on the `CommunicationHandler` class in
communication_handler.py.  Attribute access under any other name raises
`AttributeError` in Python. -/
def CommunicationHandler.methodNames : List String :=
  ["__init__", "_generate_participant_link", "initiate_contact",
   "_detect_contact_type", "_send_sms", "_send_email", "_make_phone_call",
   "send_reminder", "_generate_organizer_link", "send_plan_to_organizer",
   "send_plan_to_participant", "notify_organizer_of_rejection",
   "_format_plan_for_message"]

/-- `CommunicationHandler._generate_participant_link`. -/
def CommunicationHandler.generate_participant_link (h : CommunicationHandler)
    (session_id participant_id : String) : String :=
  h.base_url ++ "/participant?session_id=" ++ session_id ++ "&participant_id=" ++ participant_id

/-- `CommunicationHandler._detect_contact_type`. -/
def CommunicationHandler.detect_contact_type (contact : String) : String :=
  if containsChar contact '@' then "email" else "phone"

/-- `CommunicationHandler.initiate_contact` (lines 44-97): detect the contact
type, build the introduction message with the participant link, and send it
over SMS or email; with an unusable contact or disabled channel it only logs
a warning.  No state is read or written. -/
def CommunicationHandler.initiate_contact (h : CommunicationHandler)
    (session_id participant_id participant_name participant_contact
     organizer_name event_name : String) : List Sent :=
  let contact_type := CommunicationHandler.detect_contact_type participant_contact
  let participant_link := h.generate_participant_link session_id participant_id
  let message :=
    s!"Hi {participant_name}, {organizer_name} is planning {event_name} and has asked me (an AI assistant) to help coordinate. Please visit this link to share your preferences and help plan the event: {participant_link}"
  if contact_type = "phone" ∧ h.sms_enabled = true then
    [Sent.sms participant_contact message]
  else if contact_type = "email" ∧ h.email_enabled = true then
    let subject := s!"Help Plan: {event_name} with {organizer_name}"
    let email_body :=
      s!"<html><body><p>Hi {participant_name},</p><p>{organizer_name} is planning <strong>{event_name}</strong> and has asked me (an AI assistant) to help coordinate.</p><p>Please click the button below to share your preferences and help plan the event:</p><p><a href={participant_link}>Share Your Preferences</a></p><p>Thank you for your help in making this event a success!</p></body></html>"
    [Sent.email participant_contact subject email_body]
  else
    []

/-- preference_collector.py (and core_planner.py, for the question flow) call
`self.comm_handler.send_question(...)`, but the `CommunicationHandler` class
defines no `send_question` method (see `CommunicationHandler.methodNames`),
so in Python the attribute lookup raises `AttributeError` before anything is
sent. -/
def CommunicationHandler.send_question (h : CommunicationHandler)
    (participant_id contact : String) (method : Option String) (question : String) :
    Except PyError (List Sent) :=
  if "send_question" ∈ CommunicationHandler.methodNames then
    Except.ok []
  else
    Except.error (PyError.attributeError
      "CommunicationHandler object has no attribute send_question")

/-- Plan payload as consumed by `send_plan_to_participant` via
`plan.get(key, 'TBD')`. -/
structure PlanDict where
  date : Option String
  time : Option String
  location : Option String
deriving Repr, DecidableEq

/-- `plan.get(k, ...)` with the 'TBD' default used in message formatting. -/
def getTBD (o : Option String) : String := o.getD "TBD"

/-- The plan summary string built identically in `send_plan_to_organizer` and
`send_plan_to_participant`. -/
def plan_summary (plan : PlanDict) : String :=
  let d := getTBD plan.date
  let t := getTBD plan.time
  let l := getTBD plan.location
  s!"Date: {d}, Time: {t}, Location: {l}"

/-- `CommunicationHandler.send_plan_to_participant` (lines 243-305).  The
Python local `email_body` is bound only inside the `preferred_method ==
'email'` branch; the final fallback branch for an email-shaped contact reads
`email_body` without it ever being assigned on that path, which raises
`NameError` — modelled by threading `email_body` as an `Option String` that
starts out unbound (`none`). -/
def CommunicationHandler.send_plan_to_participant (h : CommunicationHandler)
    (session_id participant_id participant_name participant_contact : String)
    (preferred_method : Option String)
    (event_name organizer_name : String) (plan : PlanDict) :
    Except PyError (List Sent) :=
  let participant_link := h.generate_participant_link session_id participant_id ++ "&plan=approved"
  let summary := plan_summary plan
  let message :=
    s!"Hi {participant_name}, {organizer_name} has approved the plan for {event_name}. Quick summary: {summary}. Please visit this link to view the full plan and confirm if it works for you: {participant_link}"
  let email_body : Option String := none
  if preferred_method = some "sms" ∧ h.sms_enabled = true then
    Except.ok [Sent.sms participant_contact message]
  else if preferred_method = some "email" ∧ h.email_enabled = true then
    let subject := s!"Approved Plan for {event_name}"
    let email_body := some
      s!"<html><body><p>Hi {participant_name},</p><p><strong>{organizer_name}</strong> has approved the plan for <strong>{event_name}</strong>!</p><p><strong>Summary:</strong> {summary}</p><p>Please click the button below to view the full plan and confirm if it works for you:</p><p><a href={participant_link}>View and Confirm Plan</a></p><p>Thank you for your participation!</p></body></html>"
    Except.ok [Sent.email participant_contact subject (email_body.getD "")]
  else
    let contact_type := CommunicationHandler.detect_contact_type participant_contact
    if contact_type = "phone" ∧ h.sms_enabled = true then
      Except.ok [Sent.sms participant_contact message]
    else if contact_type = "email" ∧ h.email_enabled = true then
      let subject := s!"Approved Plan for {event_name}"
      match email_body with
      | some body => Except.ok [Sent.email participant_contact subject body]
      | none => Except.error (PyError.nameError "email_body")
    else
      Except.ok []

/-- The method names defined on the `PreferenceCollector` class in
preference_collector.py.  Attribute access under any other name raises
`AttributeError` in Python. -/
def PreferenceCollector.methodNames : List String :=
  ["__init__", "process_preferred_comm_method", "process_question_response",
   "process_continuation_response", "_send_next_question", "_generate_next_question"]

/-- `PreferenceCollector.base_questions`: the ten canonical questions
(apostrophes of the source text written out in full words). -/
def base_questions : List String :=
  ["What days of the week generally work best for you?",
   "What time of day do you prefer for activities?",
   "What types of activities do you enjoy most?",
   "Do you have any location preferences or restrictions?",
   "Are there any dietary restrictions or preferences I should know about?",
   "Do you have any mobility or accessibility needs?",
   "Are you bringing children, and if so, what are their ages?",
   "What is your comfort level with different types of transportation?",
   "Are there any budget considerations I should be aware of?",
   "What is most important to you for this event (e.g., socializing, specific activity, etc.)?"]

/-- `PreferenceCollector._generate_next_question` (lines 177-213): the next
canonical question in list order while any remain, then the generic
follow-up text (the LLM call is commented out in the source). -/
def generate_next_question (previous_responses : List (String × String)) : String :=
  if previous_responses.length = 0 then
    base_questions.getD 0 ""
  else if previous_responses.length < base_questions.length then
    base_questions.getD previous_responses.length ""
  else
    "Based on what you have shared so far, is there anything specific that would make this event perfect for you?"

/-- `PreferenceCollector._send_next_question` (lines 147-175): reads the
response history, picks the next question, stores it, then calls
`comm_handler.send_question` — which does not exist, so `AttributeError` is
raised after the question has been stored. -/
def send_next_question (db : Database) (h : CommunicationHandler)
    (session_id participant_id : String) : Database × Except PyError (List Sent) :=
  let previous_responses := db.get_participant_responses participant_id
  let next_question := generate_next_question previous_responses
  let db2 := (db.store_question participant_id next_question).1
  (db2, h.send_question participant_id (db2.get_participant_contact participant_id)
          (db2.get_preferred_comm_method participant_id) next_question)

/-- `PreferenceCollector.process_preferred_comm_method` (lines 41-71):
normalize, resolve the method (falling back to the contact format), persist
it, then send the first question. -/
def process_preferred_comm_method (db : Database) (h : CommunicationHandler)
    (session_id participant_id response : String) : Database × Except PyError (List Sent) :=
  let response := pyLower (pyStrip response)
  let method :=
    if response ∈ ["1", "text", "sms", "txt"] then "sms"
    else if response ∈ ["2", "email", "e-mail", "mail"] then "email"
    else if response ∈ ["3", "phone", "call", "voice"] then "phone"
    else
      let contact_info := db.get_participant_contact participant_id
      if containsChar contact_info '@' then "email" else "sms"
  let db2 := db.set_preferred_comm_method participant_id method
  send_next_question db2 h session_id participant_id

/-- `PreferenceCollector.process_question_response` (lines 73-108): store the
response unconditionally, then either (count >= 5) attempt the continuation
prompt — the `send_question` attribute lookup raises before
`set_awaiting_continuation` runs — or send the next question. -/
def process_question_response (db : Database) (h : CommunicationHandler)
    (session_id participant_id question_id response : String) :
    Database × Except PyError (List Sent) :=
  let db1 := db.store_preference_response participant_id question_id response
  let question_count := db1.get_question_count participant_id
  if question_count ≥ 5 then
    let message :=
      "Thank you for your responses so far! Would you be willing to answer a few more questions to help plan the perfect event? Reply with YES to continue or NO to finish."
    match h.send_question participant_id (db1.get_participant_contact participant_id)
        (db1.get_preferred_comm_method participant_id) message with
    | Except.ok sent => (db1.set_awaiting_continuation participant_id true, Except.ok sent)
    | Except.error e => (db1, Except.error e)
  else
    send_next_question db1 h session_id participant_id

/-- `PreferenceCollector.process_continuation_response` (lines 110-145). -/
def process_continuation_response (db : Database) (h : CommunicationHandler)
    (session_id participant_id response : String) : Database × Except PyError (List Sent) :=
  let response := pyLower (pyStrip response)
  let db1 := db.set_awaiting_continuation participant_id false
  if response ∈ ["yes", "y", "sure", "ok", "okay", "continue"] then
    send_next_question db1 h session_id participant_id
  else
    let db2 := db1.mark_preferences_complete participant_id
    let message :=
      "Thank you for sharing your preferences! I will use this information to help create a plan that works for everyone. You will receive the proposed plan once it is ready."
    (db2, h.send_question participant_id (db2.get_participant_contact participant_id)
            (db2.get_preferred_comm_method participant_id) message)

/-- main.py POST /preferences/complete (lines 182-193): calls
`planner.preference_collector.complete_preference_collection(...)`, a method
the `PreferenceCollector` class never defines (see
`PreferenceCollector.methodNames`), so the attribute lookup raises
`AttributeError`, the handler catches it and answers HTTP 500, and no state
changes and no notification is sent. -/
def complete_preferences (db : Database) (h : CommunicationHandler)
    (session_id participant_id : String) : Database × Except PyError (List Sent) :=
  if "complete_preference_collection" ∈ PreferenceCollector.methodNames then
    (db, Except.ok [])
  else
    (db, Except.error (PyError.attributeError
      "PreferenceCollector object has no attribute complete_preference_collection"))

/-- `CorePlanner.create_planning_session` (lines 29-59): create the session,
then add each participant in order.  No validation of any kind is performed
and the function cannot fail. -/
def create_planning_session (db : Database)
    (organizer_name organizer_contact event_name : String)
    (participants : List (String × String)) : Database × String :=
  let created := db.create_session organizer_name organizer_contact event_name
  let session_id := created.2
  let db3 := participants.foldl (fun d pr => d.add_participant session_id pr.1 pr.2) created.1
  (db3, session_id)

/-- `CorePlanner.start_outreach` (lines 61-83): look the session up and call
`initiate_contact` for every participant.  Nothing is written to the
database and no per-participant state is consulted.  (If the session id is
unknown, `get_session` yields None and the subscriptions raise TypeError.) -/
def start_outreach (db : Database) (h : CommunicationHandler) (session_id : String) :
    Except PyError (List Sent) :=
  match db.get_session session_id with
  | none => Except.error (PyError.typeError "NoneType object is not subscriptable")
  | some session =>
      Except.ok ((db.get_participants session_id).foldl
        (fun acc p =>
          acc ++ h.initiate_contact session_id p.pid p.name p.contact
            session.organizer_name session.event_name) [])

/-- Calling `start_outreach` twice in a row from the same stored state
(faithful to the source: `start_outreach` performs no database write, so the
state seen by the second call is identical). -/
def start_outreach_twice (db : Database) (h : CommunicationHandler) (session_id : String) :
    Except PyError (List Sent) :=
  match start_outreach db h session_id with
  | Except.ok s1 =>
      match start_outreach db h session_id with
      | Except.ok s2 => Except.ok (s1 ++ s2)
      | Except.error e => Except.error e
  | Except.error e => Except.error e

/-- One row of the `participant_status` projection of
`CorePlanner.check_preferences_status`. -/
structure ParticipantStatus where
  name : String
  status : String
  preferred_comm_method : Option String
deriving Repr, DecidableEq

/-- The dictionary returned by `CorePlanner.check_preferences_status`; the
Python float percentage is modelled as an exact rational. -/
structure PreferencesStatus where
  total_participants : Nat
  completed : Nat
  pending : Nat
  complete_percentage : ℚ
  participant_status : List ParticipantStatus
deriving Repr, DecidableEq

/-- `CorePlanner.check_preferences_status` (lines 85-111): counts, pending =
total - completed, percentage guarded by the truthiness of the participant
list, and the per-participant projection. -/
def check_preferences_status (db : Database) (session_id : String) : PreferencesStatus :=
  let participants := db.get_participants session_id
  let completed := participants.filter (fun p => db.is_preference_collection_complete p.pid)
  ⟨participants.length,
   completed.length,
   participants.length - completed.length,
   if participants.isEmpty then 0 else ((completed.length : ℚ) / (participants.length : ℚ)) * 100,
   participants.map (fun p =>
     ⟨p.name, if p ∈ completed then "complete" else "pending",
      db.get_preferred_comm_method p.pid⟩)⟩

/-- `CorePlanner.distribute_plan_to_participants` (lines 174-196): loops over
the participants calling `comm_handler.send_plan_to_participant(...)` with
keyword arguments `participant_name`, `participant_contact`,
`preferred_method`, `event_name`, `organizer_name` and `plan` only — the
method also requires `session_id` and `participant_id`, so Python raises
`TypeError` on the first iteration, before anything is sent.  With no
participants the loop body never runs and the call returns normally. -/
def distribute_plan_to_participants (db : Database) (h : CommunicationHandler)
    (session_id plan_id : String) : Except PyError (List Sent) :=
  match db.get_participants session_id with
  | [] => Except.ok []
  | _ :: _ => Except.error (PyError.typeError
      "send_plan_to_participant missing 2 required positional arguments: session_id and participant_id")

/-- `CorePlanner.record_organizer_decision` (lines 156-172): unconditionally
overwrite the plan status ('approved' / 'rejected') and feedback — no check
of the current plan state — then distribute on approval or only log on
rejection.  The status update is persisted before distribution is
attempted, so it survives the `TypeError` that distribution raises. -/
def record_organizer_decision (db : Database) (h : CommunicationHandler)
    (session_id plan_id : String) (approved : Bool) (feedback : Option String) :
    Database × Except PyError (List Sent) :=
  let db1 := db.update_plan_status plan_id (if approved then "approved" else "rejected") feedback
  if approved then
    (db1, distribute_plan_to_participants db1 h session_id plan_id)
  else
    (db1, Except.ok [])

end Planner

deriving instance DecidableEq for Except

namespace Planner

/-- The empty store: the state before any API call. -/
def emptyDb : Database := ⟨[], [], []⟩

/-- A session whose latest plan has already been decided and distributed
(status 'distributed', in particular not pending an organizer decision). -/
def exDbDecision : Database :=
  ⟨[("s0", ⟨"Dana", "dana@example.com", "Picnic"⟩)], [],
   [("p1", ⟨"distributed", none⟩)]⟩

/-- A participant of session s0 with a stored preferred method. -/
def exPApprove : ParticipantRec :=
  ⟨"p0", "s0", "Ann", "15551230000", some "sms", [], [], false, false⟩

/-- A session with one participant and a plan awaiting the organizer. -/
def exDbApprove : Database :=
  ⟨[("s0", ⟨"Dana", "dana@example.com", "Picnic"⟩)], [exPApprove],
   [("p1", ⟨"pending_organizer_decision", none⟩)]⟩

/-- A session with one not-yet-contacted participant (phone contact). -/
def exDbOutreach : Database :=
  ⟨[("s0", ⟨"Dana", "dana@example.com", "Picnic"⟩)],
   [⟨"p0", "s0", "Ann", "15551230000", none, [], [], false, false⟩], []⟩

/-- A participant who has already answered four questions. -/
def exPFour : ParticipantRec :=
  ⟨"p0", "s0", "Ann", "15551230000", some "sms",
   ["qa", "qb", "qc", "qd"],
   [("q1", "r1"), ("q2", "r2"), ("q3", "r3"), ("q4", "r4")], false, false⟩

/-- Session containing `exPFour`. -/
def exDbFour : Database :=
  ⟨[("s0", ⟨"Dana", "dana@example.com", "Picnic"⟩)], [exPFour], []⟩

/-- A participant whose preference collection is already COMPLETE. -/
def exPComplete : ParticipantRec :=
  ⟨"p0", "s0", "Ann", "15551230000", some "sms", [], [], false, true⟩

/-- Session containing `exPComplete`. -/
def exDbComplete : Database :=
  ⟨[("s0", ⟨"Dana", "dana@example.com", "Picnic"⟩)], [exPComplete], []⟩

/-- A participant with an email-shaped contact and no stored method yet. -/
def exPVoice : ParticipantRec :=
  ⟨"p0", "s0", "Ann", "ann@example.com", none, [], [], false, false⟩

/-- Session containing `exPVoice`. -/
def exDbVoice : Database :=
  ⟨[("s0", ⟨"Dana", "dana@example.com", "Picnic"⟩)], [exPVoice], []⟩

/-- The messages one `start_outreach` run over `exDbOutreach` emits. -/
def exOutreachSends : List Sent :=
  (start_outreach exDbOutreach defaultCommHandler "s0").toOption.getD []

/-! Helper lemmas about the storage model. -/

lemma find_map_point_update (l : List ParticipantRec) (pid : String)
    (f : ParticipantRec → ParticipantRec) (hf : ∀ q, (f q).pid = q.pid) :
    (l.map (fun p => if p.pid = pid then f p else p)).find? (fun p => decide (p.pid = pid))
      = (l.find? (fun p => decide (p.pid = pid))).map f := by
  induction l with
  | nil => rfl
  | cons a l ih =>
      by_cases ha : a.pid = pid
      · simp [List.find?_cons, ha, hf]
      · simp [List.find?_cons, ha, ih]

lemma get_participant_updateParticipant (db : Database) (pid : String)
    (f : ParticipantRec → ParticipantRec) (hf : ∀ q, (f q).pid = q.pid) :
    (db.updateParticipant pid f).get_participant pid = (db.get_participant pid).map f := by
  simpa [Database.updateParticipant, Database.get_participant]
    using find_map_point_update db.participants pid f hf

lemma find_map_plan_update (l : List (String × PlanRec)) (plan_id status : String)
    (fb : Option String) :
    (l.map (fun e => if e.1 = plan_id then (e.1, PlanRec.mk status fb) else e)).find?
        (fun e => decide (e.1 = plan_id))
      = (l.find? (fun e => decide (e.1 = plan_id))).map
          (fun e => (e.1, PlanRec.mk status fb)) := by
  induction l with
  | nil => rfl
  | cons a l ih =>
      by_cases ha : a.1 = plan_id
      · simp [List.find?_cons, ha]
      · simp [List.find?_cons, ha, ih]

lemma get_plan_update_plan_status (db : Database) (plan_id status : String)
    (fb : Option String) :
    (db.update_plan_status plan_id status fb).get_plan plan_id
      = (db.get_plan plan_id).map (fun _ => PlanRec.mk status fb) := by
  simp only [Database.update_plan_status, Database.get_plan,
    find_map_plan_update db.plans plan_id status fb, Option.map_map]
  rfl

lemma find_append_of_none {α : Type} (l₁ l₂ : List α) (p : α → Bool)
    (h : l₁.find? p = none) : (l₁ ++ l₂).find? p = l₂.find? p := by
  induction l₁ with
  | nil => rfl
  | cons a l ih =>
      cases hpa : p a with
      | true => simp [List.find?_cons, hpa] at h
      | false =>
          simp only [List.find?_cons, hpa] at h
          simp only [List.cons_append, List.find?_cons, hpa]
          exact ih h

lemma sessions_foldl_add (ps : List (String × String)) (d0 : Database) (sid : String) :
    (ps.foldl (fun d pr => d.add_participant sid pr.1 pr.2) d0).sessions = d0.sessions := by
  induction ps generalizing d0 with
  | nil => rfl
  | cons pr ps ih => simpa [Database.add_participant] using ih (d0.add_participant sid pr.1 pr.2)

lemma get_participants_foldl_add (ps : List (String × String)) (d0 : Database) (sid : String) :
    ((ps.foldl (fun d pr => d.add_participant sid pr.1 pr.2) d0).get_participants sid).map
        (fun p => (p.name, p.contact))
      = ((d0.get_participants sid).map (fun p => (p.name, p.contact))) ++ ps := by
  induction ps generalizing d0 with
  | nil => simp
  | cons pr ps ih =>
      have hstep : ((d0.add_participant sid pr.1 pr.2).get_participants sid).map
            (fun p => (p.name, p.contact))
          = ((d0.get_participants sid).map (fun p => (p.name, p.contact))) ++ [pr] := by
        simp [Database.add_participant, Database.get_participants, List.filter_append]
      calc ((List.foldl (fun d pr => d.add_participant sid pr.1 pr.2)
              (d0.add_participant sid pr.1 pr.2) ps).get_participants sid).map
              (fun p => (p.name, p.contact))
          = (((d0.add_participant sid pr.1 pr.2).get_participants sid).map
              (fun p => (p.name, p.contact))) ++ ps := ih (d0.add_participant sid pr.1 pr.2)
        _ = ((d0.get_participants sid).map (fun p => (p.name, p.contact))) ++ (pr :: ps) := by
              rw [hstep]; simp

lemma send_question_run (h : CommunicationHandler) (pid contact : String)
    (method : Option String) (question : String) :
    h.send_question pid contact method question
      = Except.error (PyError.attributeError
          "CommunicationHandler object has no attribute send_question") := rfl

lemma process_question_response_run (db : Database) (h : CommunicationHandler)
    (sid pid qid resp : String) :
    process_question_response db h sid pid qid resp
      = (let db1 := db.store_preference_response pid qid resp
         let db2 := if db1.get_question_count pid ≥ 5 then db1
                    else (db1.store_question pid
                      (generate_next_question (db1.get_participant_responses pid))).1
         (db2, Except.error (PyError.attributeError
            "CommunicationHandler object has no attribute send_question"))) := by
  by_cases hc : (db.store_preference_response pid qid resp).get_question_count pid ≥ 5 <;>
    simp [process_question_response, send_next_question, hc, send_question_run]

lemma get_participant_set_preferred (db : Database) (pid m : String) :
    (db.set_preferred_comm_method pid m).get_participant pid
      = (db.get_participant pid).map (fun p => { p with preferred_comm_method := some m }) :=
  get_participant_updateParticipant db pid _ (fun q => rfl)

lemma get_participant_store_question (db : Database) (pid q : String) :
    ((db.store_question pid q).1).get_participant pid
      = (db.get_participant pid).map (fun p => { p with questions := p.questions ++ [q] }) :=
  get_participant_updateParticipant db pid _ (fun q => rfl)

lemma get_participant_store_response (db : Database) (pid qid resp : String) :
    (db.store_preference_response pid qid resp).get_participant pid
      = (db.get_participant pid).map
          (fun p => { p with responses := p.responses ++ [(qid, resp)] }) :=
  get_participant_updateParticipant db pid _ (fun q => rfl)

lemma get_preferred_after_set_and_store (db : Database) (pid m q : String)
    (p : ParticipantRec) (hp : db.get_participant pid = some p) :
    (((db.set_preferred_comm_method pid m).store_question pid q).1).get_preferred_comm_method pid
      = some m := by
  simp [Database.get_preferred_comm_method, get_participant_store_question,
    get_participant_set_preferred, hp]

/-! The claims. -/

/-- Claim C1 (corrected): the claim says deciding on a plan not in
PENDING_ORGANIZER_DECISION fails with StateError and mutates nothing; the
code performs no state check at all — `record_organizer_decision`
unconditionally overwrites the stored status and feedback of the referenced
plan, whatever its current status, and a rejection call returns normally. -/
theorem record_organizer_decision_unconditional_update
    (db : Database) (h : CommunicationHandler) (session_id plan_id : String)
    (approved : Bool) (feedback : Option String) (r : PlanRec)
    (hp : db.get_plan plan_id = some r) :
    (record_organizer_decision db h session_id plan_id approved feedback).1.get_plan plan_id
        = some (PlanRec.mk (if approved then "approved" else "rejected") feedback)
      ∧ (approved = false →
          (record_organizer_decision db h session_id plan_id approved feedback).2
            = Except.ok []) := by
  constructor
  · cases approved <;>
      simp [record_organizer_decision, get_plan_update_plan_status, hp]
  · intro ha
    subst ha
    simp [record_organizer_decision]

/-- Witness for C1's amended theorem at a plan whose stored status is
'distributed'. -/
theorem record_organizer_decision_unconditional_update_witness :
    exDbDecision.get_plan "p1" = some (PlanRec.mk "distributed" none)
    ∧ ((record_organizer_decision exDbDecision defaultCommHandler "s0" "p1" false
          (some "needs work")).1.get_plan "p1"
          = some (PlanRec.mk "rejected" (some "needs work"))
        ∧ (false = false →
            (record_organizer_decision exDbDecision defaultCommHandler "s0" "p1" false
              (some "needs work")).2 = Except.ok [])) :=
  ⟨by decide,
   record_organizer_decision_unconditional_update exDbDecision defaultCommHandler "s0" "p1"
     false (some "needs work") (PlanRec.mk "distributed" none) (by decide)⟩

/-- Counterexample for C1: plan p1 of `exDbDecision` has status 'distributed'
— not pending an organizer decision — yet `record_organizer_decision`
returns normally (no StateError) and rewrites the stored status and
feedback. -/
theorem record_organizer_decision_mutates_settled_plan :
    exDbDecision.get_plan "p1" = some (PlanRec.mk "distributed" none)
    ∧ (record_organizer_decision exDbDecision defaultCommHandler "s0" "p1" false
        (some "needs work")).2 = Except.ok []
    ∧ (record_organizer_decision exDbDecision defaultCommHandler "s0" "p1" false
        (some "needs work")).1.get_plan "p1"
        = some (PlanRec.mk "rejected" (some "needs work")) := by decide

/-- Claim C2 (corrected): the claim says createSession fails with
ValidationError on an empty participants list or an empty contact and then
persists nothing; the code performs no validation and cannot fail: it
always persists the session and then every given participant with name and
contact exactly as given. -/
theorem create_planning_session_no_validation
    (db : Database) (organizer_name organizer_contact event_name : String)
    (participants : List (String × String))
    (hs : db.get_session ("s" ++ toString db.sessions.length) = none)
    (hp : db.get_participants ("s" ++ toString db.sessions.length) = []) :
    (create_planning_session db organizer_name organizer_contact event_name
        participants).1.get_session ("s" ++ toString db.sessions.length)
        = some (SessionRec.mk organizer_name organizer_contact event_name)
      ∧ ((create_planning_session db organizer_name organizer_contact event_name
          participants).1.get_participants ("s" ++ toString db.sessions.length)).map
            (fun p => (p.name, p.contact))
        = participants := by
  constructor
  · have hfind : db.sessions.find?
        (fun e => decide (e.1 = "s" ++ toString db.sessions.length)) = none := by
      simpa [Database.get_session, Option.map_eq_none'] using hs
    simp [create_planning_session, Database.get_session, sessions_foldl_add,
      Database.create_session, find_append_of_none _ _ _ hfind, List.find?_cons]
  · have h0 : (db.create_session organizer_name organizer_contact
        event_name).1.get_participants ("s" ++ toString db.sessions.length) = [] := hp
    simpa [create_planning_session, h0]
      using get_participants_foldl_add participants
        (db.create_session organizer_name organizer_contact event_name).1
        ("s" ++ toString db.sessions.length)

/-- Witness for C2's amended theorem: two participants, one of them with an
empty contact string, are persisted unvalidated. -/
theorem create_planning_session_no_validation_witness :
    (emptyDb.get_session "s0" = none ∧ emptyDb.get_participants "s0" = [])
    ∧ ((create_planning_session emptyDb "Org" "org@example.com" "Party"
          [("Ann", "ann@example.com"), ("Bob", "")]).1.get_session "s0"
          = some (SessionRec.mk "Org" "org@example.com" "Party")
        ∧ ((create_planning_session emptyDb "Org" "org@example.com" "Party"
            [("Ann", "ann@example.com"), ("Bob", "")]).1.get_participants "s0").map
              (fun p => (p.name, p.contact))
          = [("Ann", "ann@example.com"), ("Bob", "")]) :=
  ⟨⟨by decide, by decide⟩,
   create_planning_session_no_validation emptyDb "Org" "org@example.com" "Party"
     [("Ann", "ann@example.com"), ("Bob", "")] (by decide) (by decide)⟩

/-- Counterexample for C2: with an empty participants list the call succeeds
(no ValidationError — the function cannot fail) and the session is persisted
anyway. -/
theorem create_planning_session_accepts_empty_participants :
    (create_planning_session emptyDb "Org" "org@example.com" "Party" []).2 = "s0"
    ∧ (create_planning_session emptyDb "Org" "org@example.com" "Party" []).1.get_session "s0"
        = some (SessionRec.mk "Org" "org@example.com" "Party")
    ∧ (create_planning_session emptyDb "Org" "org@example.com" "Party"
        []).1.get_participants "s0" = [] := by decide

/-- Claim C3 (code_bug): after the stored answer brings the recorded-response
count to the threshold 5, the participant should become
AWAITING_CONTINUATION and receive a continuation prompt; in the code the
prompt goes through `comm_handler.send_question`, a method
CommunicationHandler never defines, so AttributeError is raised, nothing is
sent, and — `set_awaiting_continuation` only runs after the send — the flag
is never set.  Evaluation at the failing input: a participant with four
stored responses answering a fifth question. -/
theorem process_question_response_threshold_attribute_error :
    "send_question" ∉ CommunicationHandler.methodNames
    ∧ (process_question_response exDbFour defaultCommHandler "s0" "p0" "q5" "friday").2
        = Except.error (PyError.attributeError
            "CommunicationHandler object has no attribute send_question")
    ∧ ((process_question_response exDbFour defaultCommHandler "s0" "p0" "q5"
          "friday").1.get_participant "p0").map
          (fun p => (p.responses.length, p.awaiting_continuation))
        = some (5, false) := by decide

/-- Claim C4 (corrected): the claim says recordResponse called on a COMPLETE
or AWAITING_CONTINUATION participant fails with StateError and appends
nothing; the code performs no state check: the (question, response) pair is
appended for every participant state, and no StateError exists — instead
every call ends in AttributeError from the missing `send_question`. -/
theorem process_question_response_always_appends
    (db : Database) (h : CommunicationHandler)
    (session_id participant_id question_id response : String)
    (p : ParticipantRec) (hp : db.get_participant participant_id = some p) :
    (((process_question_response db h session_id participant_id question_id
        response).1.get_participant participant_id).map (fun q => q.responses))
      = some (p.responses ++ [(question_id, response)])
    ∧ (process_question_response db h session_id participant_id question_id response).2
      = Except.error (PyError.attributeError
          "CommunicationHandler object has no attribute send_question") := by
  have h1 : (db.store_preference_response participant_id question_id
      response).get_participant participant_id
      = some { p with responses := p.responses ++ [(question_id, response)] } := by
    rw [get_participant_store_response, hp]
    rfl
  rw [process_question_response_run]
  constructor
  · by_cases hc : (db.store_preference_response participant_id question_id
        response).get_question_count participant_id ≥ 5 <;>
      simp [hc, get_participant_store_question, h1]
  · by_cases hc : (db.store_preference_response participant_id question_id
        response).get_question_count participant_id ≥ 5 <;> simp [hc]

/-- Witness for C4's amended theorem at a participant who is already
COMPLETE: the pair is appended anyway. -/
theorem process_question_response_always_appends_witness :
    (exDbComplete.get_participant "p0" = some exPComplete
      ∧ exPComplete.preferences_complete = true)
    ∧ ((((process_question_response exDbComplete defaultCommHandler "s0" "p0" "q9"
          "late").1.get_participant "p0").map (fun q => q.responses))
        = some (exPComplete.responses ++ [("q9", "late")])
      ∧ (process_question_response exDbComplete defaultCommHandler "s0" "p0" "q9" "late").2
        = Except.error (PyError.attributeError
            "CommunicationHandler object has no attribute send_question")) :=
  ⟨⟨by decide, by decide⟩,
   process_question_response_always_appends exDbComplete defaultCommHandler "s0" "p0"
     "q9" "late" exPComplete (by decide)⟩

/-- Counterexample for C4: participant p0 of `exDbComplete` is COMPLETE, yet
the call appends the (question, response) pair to their response sequence
(and no StateError is raised — the error is the AttributeError of the
missing send_question). -/
theorem process_question_response_appends_for_complete_participant :
    ((process_question_response exDbComplete defaultCommHandler "s0" "p0" "q9"
        "late").1.get_participant "p0").map
        (fun p => (p.preferences_complete, p.responses))
      = some (true, [("q9", "late")]) := by decide

/-- Claim C5 (corrected): the claim maps {3, phone, call, voice} to 'voice'
and says the call never fails; the code stores the string 'phone' for that
group, and after persisting the resolved method the call always raises
AttributeError when it tries to send the first question through the
nonexistent `send_question`.  The rest — trimming, lowercasing, the sms and
email groups, the contact-format fallback, persistence — is as claimed. -/
theorem process_preferred_comm_method_resolution
    (db : Database) (h : CommunicationHandler) (session_id participant_id response : String)
    (p : ParticipantRec) (hp : db.get_participant participant_id = some p) :
    (process_preferred_comm_method db h session_id participant_id
        response).1.get_preferred_comm_method participant_id
      = some (if pyLower (pyStrip response) ∈ ["1", "text", "sms", "txt"] then "sms"
              else if pyLower (pyStrip response) ∈ ["2", "email", "e-mail", "mail"] then "email"
              else if pyLower (pyStrip response) ∈ ["3", "phone", "call", "voice"] then "phone"
              else if containsChar p.contact '@' then "email" else "sms")
    ∧ (process_preferred_comm_method db h session_id participant_id response).2
      = Except.error (PyError.attributeError
          "CommunicationHandler object has no attribute send_question") := by
  have hcontact : db.get_participant_contact participant_id = p.contact := by
    simp [Database.get_participant_contact, hp]
  constructor
  · simp only [process_preferred_comm_method, send_next_question, hcontact]
    exact get_preferred_after_set_and_store db participant_id _ _ p hp
  · simp [process_preferred_comm_method, send_next_question, send_question_run]

/-- Witness for C5's amended theorem: the raw response ' VOICE ' is trimmed,
lowercased, resolved to the stored string 'phone', and the call fails with
the AttributeError. -/
theorem process_preferred_comm_method_resolution_witness :
    exDbVoice.get_participant "p0" = some exPVoice
    ∧ ((process_preferred_comm_method exDbVoice defaultCommHandler "s0" "p0"
          " VOICE ").1.get_preferred_comm_method "p0" = some "phone"
        ∧ (process_preferred_comm_method exDbVoice defaultCommHandler "s0" "p0" " VOICE ").2
          = Except.error (PyError.attributeError
              "CommunicationHandler object has no attribute send_question")) :=
  ⟨by decide,
   process_preferred_comm_method_resolution exDbVoice defaultCommHandler "s0" "p0"
     " VOICE " exPVoice (by decide)⟩

/-- Counterexample for C5: the response 'voice' resolves to the stored
string 'phone', not 'voice', and the call fails (AttributeError) rather
than never failing. -/
theorem process_preferred_comm_method_voice_stores_phone :
    (process_preferred_comm_method exDbVoice defaultCommHandler "s0" "p0"
        "voice").1.get_preferred_comm_method "p0" = some "phone"
    ∧ (process_preferred_comm_method exDbVoice defaultCommHandler "s0" "p0" "voice").2
        = Except.error (PyError.attributeError
            "CommunicationHandler object has no attribute send_question") := by decide

/-- Claim C6 (code_bug): on approval the plan should be sent once to every
participant; the code's `distribute_plan_to_participants` calls
`send_plan_to_participant` without the required `session_id` and
`participant_id` arguments, so with at least one participant Python raises
TypeError on the first loop iteration — the stored status still becomes
'approved' (persisted before distribution) but nothing is ever delivered to
anyone.  The rejection half behaves as claimed: status 'rejected', no
distribution, no new plan version.  Evaluated at the failing input (a
session with one participant, approved=true) and at the rejection case. -/
theorem record_organizer_decision_approval_type_error :
    (record_organizer_decision exDbApprove defaultCommHandler "s0" "p1" true none).2
        = Except.error (PyError.typeError
            "send_plan_to_participant missing 2 required positional arguments: session_id and participant_id")
    ∧ (record_organizer_decision exDbApprove defaultCommHandler "s0" "p1" true
        none).1.get_plan "p1" = some (PlanRec.mk "approved" none)
    ∧ (record_organizer_decision exDbApprove defaultCommHandler "s0" "p1" false
        (some "no")).2 = Except.ok []
    ∧ (record_organizer_decision exDbApprove defaultCommHandler "s0" "p1" false
        (some "no")).1.plans = [("p1", PlanRec.mk "rejected" (some "no"))] := by decide

/-- Claim C7 (corrected): the claim says repeating outreach past
NOT_CONTACTED is a no-op with no duplicate introduction; `start_outreach`
records nothing and checks no per-participant state, so a repeated
invocation emits every introduction message a second time. -/
theorem start_outreach_not_idempotent
    (db : Database) (h : CommunicationHandler) (session_id : String) (s : List Sent)
    (h1 : start_outreach db h session_id = Except.ok s) :
    start_outreach_twice db h session_id = Except.ok (s ++ s) := by
  simp [start_outreach_twice, h1]

set_option maxRecDepth 4000 in
/-- Witness for C7's amended theorem on a one-participant session. -/
theorem start_outreach_not_idempotent_witness :
    start_outreach exDbOutreach defaultCommHandler "s0" = Except.ok exOutreachSends
    ∧ start_outreach_twice exDbOutreach defaultCommHandler "s0"
        = Except.ok (exOutreachSends ++ exOutreachSends) :=
  ⟨by decide,
   start_outreach_not_idempotent exDbOutreach defaultCommHandler "s0" exOutreachSends
     (by decide)⟩

set_option maxRecDepth 4000 in
/-- Counterexample for C7: one never-contacted participant; the first call
sends one introduction and an identical second call sends it again — two
sends in total instead of the claimed no-op. -/
theorem start_outreach_repeat_sends_again :
    (start_outreach exDbOutreach defaultCommHandler "s0").toOption.map List.length = some 1
    ∧ (start_outreach_twice exDbOutreach defaultCommHandler "s0").toOption.map List.length
        = some 2 := by decide

/-- Claim C8 (code_bug): the /preferences/complete operation should move the
participant to COMPLETE with one thank-you notification and be idempotent;
in the code, main.py calls
`preference_collector.complete_preference_collection`, a method the
`PreferenceCollector` class never defines, so every call raises
`AttributeError` (surfaced as HTTP 500), changes no state and sends
nothing. -/
theorem complete_preferences_always_attribute_error
    (db : Database) (h : CommunicationHandler) (session_id participant_id : String) :
    complete_preferences db h session_id participant_id
        = (db, Except.error (PyError.attributeError
            "PreferenceCollector object has no attribute complete_preference_collection"))
      ∧ "complete_preference_collection" ∉ PreferenceCollector.methodNames := by
  constructor
  · rfl
  · decide

/-- Claim C9 (confirmed): `check_preferences_status` always reports
completed + pending = total, and a completion percentage that is 0 when the
session has no participants and completed / total * 100 otherwise. -/
theorem check_preferences_status_invariants (db : Database) (session_id : String) :
    (check_preferences_status db session_id).completed
        + (check_preferences_status db session_id).pending
        = (check_preferences_status db session_id).total_participants
      ∧ (check_preferences_status db session_id).complete_percentage
        = (if (check_preferences_status db session_id).total_participants = 0 then 0
           else ((check_preferences_status db session_id).completed : ℚ)
                / ((check_preferences_status db session_id).total_participants : ℚ) * 100) := by
  constructor
  · have hle := List.length_filter_le
      (fun p => db.is_preference_collection_complete p.pid) (db.get_participants session_id)
    simpa [check_preferences_status] using Nat.add_sub_cancel' hle
  · rcases hl : db.get_participants session_id with _ | ⟨a, l⟩ <;>
      simp [check_preferences_status, hl]

/-- Claim C10 (confirmed): for a participant whose stored preferred method is
neither 'sms' nor 'email' and whose contact contains '@',
`send_plan_to_participant` reaches the email fallback branch, where the
Python local `email_body` is read without ever being assigned on that path,
so the call raises `NameError` and delivers nothing. -/
theorem send_plan_to_participant_email_fallback_name_error
    (session_id participant_id participant_name participant_contact : String)
    (preferred_method : Option String) (event_name organizer_name : String) (plan : PlanDict)
    (h1 : preferred_method ≠ some "sms") (h2 : preferred_method ≠ some "email")
    (h3 : containsChar participant_contact '@' = true) :
    defaultCommHandler.send_plan_to_participant session_id participant_id participant_name
        participant_contact preferred_method event_name organizer_name plan
      = Except.error (PyError.nameError "email_body") := by
  simp [CommunicationHandler.send_plan_to_participant,
    CommunicationHandler.detect_contact_type, defaultCommHandler, h1, h2, h3]

/-- Witness for C10 at preferred method 'phone' and contact
'ann@example.com'. -/
theorem send_plan_to_participant_email_fallback_name_error_witness :
    ((some "phone" : Option String) ≠ some "sms"
      ∧ (some "phone" : Option String) ≠ some "email"
      ∧ containsChar "ann@example.com" '@' = true)
    ∧ defaultCommHandler.send_plan_to_participant "s0" "p0" "Ann" "ann@example.com"
        (some "phone") "Picnic" "Dana" (PlanDict.mk none none none)
      = Except.error (PyError.nameError "email_body") :=
  ⟨⟨by decide, by decide, by decide⟩,
   send_plan_to_participant_email_fallback_name_error "s0" "p0" "Ann" "ann@example.com"
     (some "phone") "Picnic" "Dana" (PlanDict.mk none none none)
     (by decide) (by decide) (by decide)⟩

end Planner
